import Mathlib

/-!
Shallow embedding of the pavise schema-validation engine.

The embedding covers:
  - the shared error surface (the source raises Python `ValueError` /
    `TypeError` with structured messages; here each raise site becomes a
    constructor of `Pavise.Error`, together with the host exception class it
    is raised as);
  - `patrol/_core/validation.py` (pandas backend: existence and type checks,
    namespace `Pavise.Core`);
  - `patrol/_pandas/validator_impl.py` (pandas constraint dispatcher,
    namespace `Pavise.Pandas`);
  - `patrol/polars.py` (polars backend: registry, existence and type checks,
    and the typed-table wrapper `DataFrame`, namespace `Pavise.Polars`).

The `Range` constraint class from `patrol/validators.py` and the pandas
typed-table wrapper from `patrol/pandas.py` are not part of the provided
sources; they are modelled from the specification and marked as such.
-/

namespace Pavise

/-- Abstract logical types: the Python annotation types a schema Protocol can
declare (builtins `int`, `float`, `str`, `bool` and `datetime.datetime`,
`datetime.date`, `datetime.timedelta`). -/
inductive LogicalType
  | int
  | float
  | str
  | bool
  | datetime
  | date
  | timedelta
deriving DecidableEq, Repr

/-- Column cell values, enough to embed the tables appearing in the
repository's tests: integers, strings, booleans, and the date/time families
(each date/time value abstracted as an integer tick count). -/
inductive PValue
  | int (i : Int)
  | str (s : String)
  | bool (b : Bool)
  | datetime (ticks : Int)
  | date (days : Int)
  | duration (ticks : Int)
deriving DecidableEq, Repr

/-- A column of a dataframe: its physical dtype descriptor together with its
value sequence. `δ` is the backend-native dtype type. -/
structure Column (δ : Type) where
  dtype : δ
  values : List PValue
deriving DecidableEq, Repr

/-- A dataframe, viewed through the narrow interface the validation engine
uses: an ordered association of column names to columns. -/
structure Table (δ : Type) where
  cols : List (String × Column δ)
deriving DecidableEq, Repr

/-- The dataframe's column-name list (the source reads `df.columns`). -/
def Table.columns {δ : Type} (df : Table δ) : List String :=
  df.cols.map Prod.fst

/-- Column access `df[name]`: the first column bearing the name, if any
(in the source, access to an absent column raises `KeyError`). -/
def Table.lookup {δ : Type} (df : Table δ) (col : String) : Option (Column δ) :=
  List.lookup col df.cols

/-- Host exception classes the source raises its errors as. -/
inductive HostExn
  | valueError
  | typeError
  | keyError
deriving DecidableEq, Repr

/-- The error surface of the engine. Each constructor corresponds to one
raise site in the source and carries the data interpolated into that site's
message string. -/
inductive Error (δ : Type)
  /-- Raised by `_check_column_exists`: message `Missing column: ` + col. -/
  | missingColumn (col : String)
  /-- Raised by `_check_column_type` when the declared type has no registry
  entry: message `Unsupported type: ` + the declared type. -/
  | unsupportedType (expected : LogicalType)
  /-- Raised by `_check_column_type` when the registry predicate rejects the
  column's dtype: message names the column, the expected logical type and
  the actual dtype. -/
  | typeMismatch (col : String) (expected : LogicalType) (actual : δ)
  /-- Raised by `_validate_range`: message names the column and the inclusive
  range bounds. -/
  | constraintViolation (col : String) (lo hi : Int)
  /-- Raised by `apply_validator` on an unrecognized validator: message names
  the validator's Python type. -/
  | unknownConstraintKind (typeName : String)
  /-- Host `KeyError` from `df[col]` on an absent column (unreachable in the
  engine's flow, where existence is checked first). -/
  | keyError (col : String)
deriving DecidableEq, Repr

/-- The host exception class each error is raised as in the source:
`_check_column_exists` and the unsupported-type branch of
`_check_column_type` raise `ValueError`; the mismatch branch raises
`TypeError`; `_validate_range` and `apply_validator` raise `ValueError`. -/
def Error.hostClass {δ : Type} : Error δ → HostExn
  | .missingColumn _ => .valueError
  | .unsupportedType _ => .valueError
  | .typeMismatch _ _ _ => .typeError
  | .constraintViolation _ _ _ => .valueError
  | .unknownConstraintKind _ => .valueError
  | .keyError _ => .keyError

namespace Core

/-- Pandas physical dtype descriptors (the dtype families the source's
registry predicates distinguish). -/
inductive PdDtype
  | int64
  | float64
  | boolean
  | object
  | string
  | datetime64
deriving DecidableEq, Repr

/-- `pd.api.types.is_integer_dtype` on the embedded dtype set. -/
def is_integer_dtype (dtype : PdDtype) : Bool := dtype == PdDtype.int64

/-- `pd.api.types.is_float_dtype` on the embedded dtype set. -/
def is_float_dtype (dtype : PdDtype) : Bool := dtype == PdDtype.float64

/-- `pd.api.types.is_string_dtype` on the embedded dtype set (pandas treats
both `object` and `string` dtypes as string dtypes). -/
def is_string_dtype (dtype : PdDtype) : Bool :=
  dtype == PdDtype.object || dtype == PdDtype.string

/-- `pd.api.types.is_bool_dtype` on the embedded dtype set. -/
def is_bool_dtype (dtype : PdDtype) : Bool := dtype == PdDtype.boolean

/-- A pandas dataframe. -/
abbrev PdTable := Table PdDtype

/-- Pandas-side logical type registry, from `patrol/_core/validation.py`:
a mapping from annotation type to a dtype predicate, with entries for
`int`, `float`, `str` and `bool` only. -/
def TYPE_CHECKERS : List (LogicalType × (PdDtype → Bool)) :=
  [ (LogicalType.int, is_integer_dtype),
    (LogicalType.float, is_float_dtype),
    (LogicalType.str, is_string_dtype),
    (LogicalType.bool, is_bool_dtype) ]

/-- `_check_column_exists` from `patrol/_core/validation.py`: raises
`ValueError` when the column name is not among the dataframe's columns. -/
def _check_column_exists (df : PdTable) (col_name : String) :
    Except (Error PdDtype) Unit :=
  if col_name ∉ Table.columns df then
    Except.error (Error.missingColumn col_name)
  else
    Except.ok ()

/-- `_check_column_type` from `patrol/_core/validation.py`: first looks the
declared type up in `TYPE_CHECKERS` (absence raises `ValueError`), then
applies the registered predicate to the column's dtype (rejection raises
`TypeError`). -/
def _check_column_type (df : PdTable) (col_name : String)
    (expected_type : LogicalType) : Except (Error PdDtype) Unit :=
  match List.lookup expected_type TYPE_CHECKERS with
  | none => Except.error (Error.unsupportedType expected_type)
  | some type_checker =>
    match Table.lookup df col_name with
    | none => Except.error (Error.keyError col_name)
    | some c =>
      if type_checker c.dtype then Except.ok ()
      else Except.error (Error.typeMismatch col_name expected_type c.dtype)

/-- `validate_dataframe` from `patrol/_core/validation.py`: iterates the
schema's type hints in declaration order (`get_type_hints` yields the ordered
name-to-annotation mapping, with `Annotated` metadata stripped) and checks
existence then type for each column, failing fast on the first error. -/
def validate_dataframe (df : PdTable) :
    List (String × LogicalType) → Except (Error PdDtype) Unit
  | [] => Except.ok ()
  | (col_name, col_type) :: rest =>
    match _check_column_exists df col_name with
    | Except.error e => Except.error e
    | Except.ok _ =>
      match _check_column_type df col_name col_type with
      | Except.error e => Except.error e
      | Except.ok _ => validate_dataframe df rest

end Core

namespace Pandas

/-- Modelled from the spec: the `Range` constraint class of
`patrol/validators.py`, which is not among the provided sources (only its
importers are). Per the spec it is a value object with inclusive `min` and
`max` bounds, comparable to the column's element type. -/
structure Range where
  min : Int
  max : Int
deriving DecidableEq, Repr

/-- The universe of validator objects the dispatcher can receive (the source
takes `validator : Any` and branches on `isinstance(validator, Range)`):
either a `Range`, or some other Python object identified by its type name. -/
inductive PyValidator
  | range (r : Range)
  | other (typeName : String)
deriving DecidableEq, Repr

/-- `_validate_range` from `patrol/_pandas/validator_impl.py`: raises
`ValueError` when any value of the series is below `min` or above `max`.
The series is embedded as the column's numeric value sequence. -/
def _validate_range (series : List Int) (validator : Range)
    (col_name : String) : Except (Error Core.PdDtype) Unit :=
  if series.any (fun x => x < validator.min) ||
      series.any (fun x => x > validator.max) then
    Except.error (Error.constraintViolation col_name validator.min validator.max)
  else
    Except.ok ()

/-- `apply_validator` from `patrol/_pandas/validator_impl.py`: dispatches on
the validator's class, delegating `Range` to `_validate_range` and raising
`ValueError` (naming the validator's type) on anything else. -/
def apply_validator (series : List Int) (validator : PyValidator)
    (col_name : String) : Except (Error Core.PdDtype) Unit :=
  match validator with
  | PyValidator.range r => _validate_range series r col_name
  | PyValidator.other t => Except.error (Error.unknownConstraintKind t)

/-- The numeric value sequence of a column, as handed to the constraint
dispatcher (non-numeric cells do not participate in numeric comparisons). -/
def series_of (df : Core.PdTable) (col : String) : List Int :=
  (((Table.lookup df col).map Column.values).getD []).filterMap
    (fun v => match v with | PValue.int i => some i | _ => none)

/-- A pandas schema as the wrapper sees it: the ordered per-column logical
type together with the constraint objects attached via `Annotated`. -/
abbrev PdSchema := List (String × LogicalType × List PyValidator)

/-- Sequential application of a column's attached constraints through the
dispatcher, in declaration order, failing fast. -/
def apply_validators (series : List Int) (col_name : String) :
    List PyValidator → Except (Error Core.PdDtype) Unit
  | [] => Except.ok ()
  | v :: rest =>
    match apply_validator series v col_name with
    | Except.error e => Except.error e
    | Except.ok _ => apply_validators series col_name rest

/-- Modelled from the spec: the validation run of the pandas typed-table
wrapper in `patrol/pandas.py`, which is not among the provided sources (only
its tests and its callees `validate_dataframe` and `apply_validator` are).
Per spec section 4.3, for each column in schema-declaration order it checks
existence, then type via the registry, then each attached constraint via the
Constraint Dispatcher, failing fast. -/
def validate_with_constraints (df : Core.PdTable) :
    PdSchema → Except (Error Core.PdDtype) Unit
  | [] => Except.ok ()
  | (col_name, col_type, constraints) :: rest =>
    match Core._check_column_exists df col_name with
    | Except.error e => Except.error e
    | Except.ok _ =>
      match Core._check_column_type df col_name col_type with
      | Except.error e => Except.error e
      | Except.ok _ =>
        match apply_validators (series_of df col_name) col_name constraints with
        | Except.error e => Except.error e
        | Except.ok _ => validate_with_constraints df rest

/-- Modelled from the spec: the pandas typed-table wrapper constructor
`patrol.pandas.DataFrame` bound to a schema (not among the provided sources).
Per spec section 4.4 it runs the validation engine on the dataframe and, on
success, returns the very dataframe it was given. -/
def DataFrame_new (schema : PdSchema) (df : Core.PdTable) :
    Except (Error Core.PdDtype) Core.PdTable :=
  match validate_with_constraints df schema with
  | Except.error e => Except.error e
  | Except.ok _ => Except.ok df

end Pandas

namespace Polars

/-- Polars physical dtype descriptors, as enumerated in `patrol/polars.py`
(plus the native date/time dtypes the test suite exercises). -/
inductive PlDtype
  | Int8
  | Int16
  | Int32
  | Int64
  | UInt8
  | UInt16
  | UInt32
  | UInt64
  | Float32
  | Float64
  | Utf8
  | Boolean
  | Datetime
  | Date
  | Duration
deriving DecidableEq, Repr

/-- A polars dataframe. -/
abbrev PlTable := Table PlDtype

/-- Polars-side logical type registry `TYPE_CHECKERS` from
`patrol/polars.py`: entries for `int` (the eight fixed-width integer
dtypes), `float` (the two float dtypes), `str` (Utf8) and `bool` (Boolean).
No entries exist for the date/time annotation types. -/
def TYPE_CHECKERS : List (LogicalType × (PlDtype → Bool)) :=
  [ (LogicalType.int, fun dtype =>
      [PlDtype.Int8, PlDtype.Int16, PlDtype.Int32, PlDtype.Int64,
        PlDtype.UInt8, PlDtype.UInt16, PlDtype.UInt32,
        PlDtype.UInt64].contains dtype),
    (LogicalType.float, fun dtype =>
      [PlDtype.Float32, PlDtype.Float64].contains dtype),
    (LogicalType.str, fun dtype => dtype == PlDtype.Utf8),
    (LogicalType.bool, fun dtype => dtype == PlDtype.Boolean) ]

/-- `_check_column_exists` from `patrol/polars.py`: raises `ValueError` when
the column name is not among the dataframe's columns. -/
def _check_column_exists (df : PlTable) (col_name : String) :
    Except (Error PlDtype) Unit :=
  if col_name ∉ Table.columns df then
    Except.error (Error.missingColumn col_name)
  else
    Except.ok ()

/-- `_check_column_type` from `patrol/polars.py`: looks the declared type up
in `TYPE_CHECKERS` (absence raises `ValueError`), then applies the registered
predicate to the column's dtype (rejection raises `TypeError`). -/
def _check_column_type (df : PlTable) (col_name : String)
    (expected_type : LogicalType) : Except (Error PlDtype) Unit :=
  match List.lookup expected_type TYPE_CHECKERS with
  | none => Except.error (Error.unsupportedType expected_type)
  | some type_checker =>
    match Table.lookup df col_name with
    | none => Except.error (Error.keyError col_name)
    | some c =>
      if type_checker c.dtype then Except.ok ()
      else Except.error (Error.typeMismatch col_name expected_type c.dtype)

/-- `validate_dataframe` from `patrol/polars.py`: iterates the schema's type
hints in declaration order and checks existence then type for each column,
failing fast on the first error. -/
def validate_dataframe (df : PlTable) :
    List (String × LogicalType) → Except (Error PlDtype) Unit
  | [] => Except.ok ()
  | (col_name, col_type) :: rest =>
    match _check_column_exists df col_name with
    | Except.error e => Except.error e
    | Except.ok _ =>
      match _check_column_type df col_name col_type with
      | Except.error e => Except.error e
      | Except.ok _ => validate_dataframe df rest

/-- The runtime class of the object `DataFrame.__new__` hands back: either
plain `pl.DataFrame`, or the schema-bound wrapper subclass produced by
`__class_getitem__` (which `__new__` never instantiates). -/
inductive PyClass
  | plDataFrame
  | typedDataFrame
deriving DecidableEq, Repr

/-- A constructed object together with its runtime class. -/
structure PlInstance where
  frame : PlTable
  cls : PyClass
deriving DecidableEq, Repr

/-- The `DataFrame` class object of `patrol/polars.py`, identified by its
`_schema` class attribute (`None` on the base class). -/
structure DataFrameClass where
  _schema : Option (List (String × LogicalType))
deriving DecidableEq, Repr

/-- The unparameterized `DataFrame` base class (`_schema = None`). -/
def DataFrame_base : DataFrameClass := { _schema := none }

/-- `DataFrame.__class_getitem__` from `patrol/polars.py`: returns a fresh
subclass whose `_schema` attribute is the given schema. -/
def __class_getitem__ (schema : List (String × LogicalType)) : DataFrameClass :=
  { _schema := some schema }

/-- The `data` argument of `DataFrame.__new__`: either an existing polars
dataframe, or raw data (`Raw`) to be passed to the external `pl.DataFrame`
constructor. -/
inductive DataInput (Raw : Type)
  | frame (df : PlTable)
  | raw (d : Raw)

/-- `DataFrame.__new__` from `patrol/polars.py`. If `data` is already a
`pl.DataFrame`, the instance IS `data`; otherwise the instance is built by
the external `pl.DataFrame` constructor (abstracted as the parameter
`pl_DataFrame`) from the raw data and the extra arguments. If the class
carries a schema, the instance is validated; the instance itself — a plain
`pl.DataFrame`, never the wrapper subclass — is returned. -/
def DataFrame_new {Raw Args : Type} (pl_DataFrame : Raw → Args → PlTable)
    (cls : DataFrameClass) (data : DataInput Raw) (args : Args) :
    Except (Error PlDtype) PlInstance :=
  let inst : PlInstance :=
    match data with
    | DataInput.frame df => { frame := df, cls := PyClass.plDataFrame }
    | DataInput.raw d => { frame := pl_DataFrame d args, cls := PyClass.plDataFrame }
  match cls._schema with
  | some schema =>
    match validate_dataframe inst.frame schema with
    | Except.error e => Except.error e
    | Except.ok _ => Except.ok inst
  | none => Except.ok inst

end Polars

/-! Helper lemmas about the embedded engine. -/

theorem Table.mem_columns_iff {δ : Type} (df : Table δ) (c : String) :
    c ∈ Table.columns df ↔ (Table.lookup df c).isSome = true := by
  obtain ⟨cols⟩ := df
  induction cols with
  | nil => simp [Table.columns, Table.lookup, List.lookup]
  | cons p tl ih =>
    obtain ⟨k, v⟩ := p
    by_cases hck : c = k
    · subst hck
      simp [Table.columns, Table.lookup, List.lookup]
    · have hbeq : (c == k) = false := beq_eq_false_iff_ne.mpr hck
      simp only [Table.columns, Table.lookup, List.lookup, List.map_cons,
        List.mem_cons, hbeq, hck, false_or] at ih ⊢
      exact ih

theorem Core.validate_pre_ok (df : Core.PdTable)
    (l2 : List (String × LogicalType)) :
    ∀ l1, (∀ p ∈ l1, Core._check_column_exists df p.1 = Except.ok () ∧
        Core._check_column_type df p.1 p.2 = Except.ok ()) →
      Core.validate_dataframe df (l1 ++ l2) = Core.validate_dataframe df l2
  | [], _ => rfl
  | p :: tl, h => by
    obtain ⟨c, lt⟩ := p
    have hp := h (c, lt) (List.mem_cons_self _ _)
    have ih := Core.validate_pre_ok df l2 tl
      (fun q hq => h q (List.mem_cons_of_mem _ hq))
    calc Core.validate_dataframe df (((c, lt) :: tl) ++ l2)
        = Core.validate_dataframe df (tl ++ l2) := by
          simp [Core.validate_dataframe, hp.1, hp.2]
      _ = Core.validate_dataframe df l2 := ih

theorem Polars.validate_all_ok (df : Polars.PlTable) :
    ∀ s, (∀ p ∈ s, Polars._check_column_exists df p.1 = Except.ok () ∧
        Polars._check_column_type df p.1 p.2 = Except.ok ()) →
      Polars.validate_dataframe df s = Except.ok ()
  | [], _ => rfl
  | p :: tl, h => by
    obtain ⟨c, lt⟩ := p
    have hp := h (c, lt) (List.mem_cons_self _ _)
    have ih := Polars.validate_all_ok df tl
      (fun q hq => h q (List.mem_cons_of_mem _ hq))
    calc Polars.validate_dataframe df ((c, lt) :: tl)
        = Polars.validate_dataframe df tl := by
          simp [Polars.validate_dataframe, hp.1, hp.2]
      _ = Except.ok () := ih

theorem Polars.check_exists_ok_of_lookup (df : Polars.PlTable) (c : String)
    (col : Column Polars.PlDtype) (h : Table.lookup df c = some col) :
    Polars._check_column_exists df c = Except.ok () := by
  have hmem : c ∈ Table.columns df := by
    rw [Table.mem_columns_iff, h]
    rfl
  simp [Polars._check_column_exists, hmem]

theorem Polars.check_type_ok (df : Polars.PlTable) (c : String)
    (lt : LogicalType) (col : Column Polars.PlDtype)
    (chk : Polars.PlDtype → Bool)
    (hreg : List.lookup lt Polars.TYPE_CHECKERS = some chk)
    (hcol : Table.lookup df c = some col)
    (hsat : chk col.dtype = true) :
    Polars._check_column_type df c lt = Except.ok () := by
  simp [Polars._check_column_type, hreg, hcol, hsat]

theorem Polars.check_exists_congr (df₁ df₂ : Polars.PlTable) (c : String)
    (h : Table.lookup df₁ c = Table.lookup df₂ c) :
    Polars._check_column_exists df₁ c = Polars._check_column_exists df₂ c := by
  have hmem : (c ∈ Table.columns df₁) ↔ (c ∈ Table.columns df₂) := by
    rw [Table.mem_columns_iff, Table.mem_columns_iff, h]
  unfold Polars._check_column_exists
  by_cases hc : c ∈ Table.columns df₁
  · simp [hc, hmem.mp hc]
  · have hc₂ : c ∉ Table.columns df₂ := fun hh => hc (hmem.mpr hh)
    simp [hc, hc₂]

theorem Polars.check_type_congr (df₁ df₂ : Polars.PlTable) (c : String)
    (lt : LogicalType) (h : Table.lookup df₁ c = Table.lookup df₂ c) :
    Polars._check_column_type df₁ c lt = Polars._check_column_type df₂ c lt := by
  unfold Polars._check_column_type
  simp only [h]

/-! Claim theorems. -/

/-- C1: after the existence and type checks pass, the validation engine
invokes the Constraint Dispatcher per attached constraint over the column's
full value sequence; in particular, for the schema declaring `age` as an
integer with `Range(0, 150)` and the table with `age = [25, -5, 30]`,
validation run through the typed-table wrapper fails with a
ConstraintViolation referencing column `age` and the inclusive range
0 to 150. -/
theorem c1_range_violation_through_wrapper :
    Pandas.apply_validator [25, -5, 30]
        (Pandas.PyValidator.range { min := 0, max := 150 }) "age" =
      Except.error (Error.constraintViolation "age" 0 150) ∧
    Pandas.DataFrame_new
        [("age", LogicalType.int,
          [Pandas.PyValidator.range { min := 0, max := 150 }])]
        ⟨[("age", ⟨Core.PdDtype.int64,
            [PValue.int 25, PValue.int (-5), PValue.int 30]⟩)]⟩ =
      Except.error (Error.constraintViolation "age" 0 150) :=
  ⟨rfl, rfl⟩

/-- C2: for every schema whose declared columns all exist in the dataframe
with a physical dtype satisfying the registered predicate, the typed-table
wrapper `DataFrame` bound to that schema, applied to an existing backend
dataframe, succeeds and returns that very dataframe (by identity, not a
copy), for any extra constructor arguments. The polars backend attaches no
runtime constraints (the engine reads only the type hints), so every
attached constraint passes vacuously. -/
theorem c2_valid_frame_returned_by_identity {Raw Args : Type}
    (pl_DataFrame : Raw → Args → Polars.PlTable)
    (s : List (String × LogicalType)) (df : Polars.PlTable) (args : Args)
    (h : ∀ p ∈ s, ∃ col chk, Table.lookup df p.1 = some col ∧
        List.lookup p.2 Polars.TYPE_CHECKERS = some chk ∧
        chk col.dtype = true) :
    Polars.DataFrame_new pl_DataFrame (Polars.__class_getitem__ s)
        (Polars.DataInput.frame df) args =
      Except.ok { frame := df, cls := Polars.PyClass.plDataFrame } := by
  have hval : Polars.validate_dataframe df s = Except.ok () := by
    apply Polars.validate_all_ok
    intro p hp
    obtain ⟨col, chk, hcol, hreg, hsat⟩ := h p hp
    exact ⟨Polars.check_exists_ok_of_lookup df p.1 col hcol,
      Polars.check_type_ok df p.1 p.2 col chk hreg hcol hsat⟩
  simp [Polars.DataFrame_new, Polars.__class_getitem__, hval]

/-- Witness for C2: a concrete one-column integer dataframe passed through
the schema-bound wrapper comes back unchanged. -/
theorem c2_valid_frame_returned_by_identity_witness :
    Polars.DataFrame_new (fun (_ : Unit) (_ : Unit) => ⟨[]⟩)
        (Polars.__class_getitem__ [("a", LogicalType.int)])
        (Polars.DataInput.frame
          ⟨[("a", ⟨Polars.PlDtype.Int64,
              [PValue.int 1, PValue.int 2, PValue.int 3]⟩)]⟩) () =
      Except.ok
        ⟨⟨[("a", ⟨Polars.PlDtype.Int64,
            [PValue.int 1, PValue.int 2, PValue.int 3]⟩)]⟩,
          Polars.PyClass.plDataFrame⟩ :=
  c2_valid_frame_returned_by_identity _ _ _ _ (by
    intro p hp
    simp only [List.mem_singleton] at hp
    subst hp
    exact ⟨⟨Polars.PlDtype.Int64,
      [PValue.int 1, PValue.int 2, PValue.int 3]⟩, _, rfl, rfl, rfl⟩)

/-- C3 counterexample: a schema declaring `a : int` then `b : int` against a
table whose only column `a` holds strings. Column `b` is declared and absent,
yet fail-fast validation stops earlier, at the type mismatch on `a`, so the
failure is not a MissingColumn error naming `b`. -/
theorem c3_counterexample :
    ("b", LogicalType.int) ∈
      ([("a", LogicalType.int), ("b", LogicalType.int)] :
        List (String × LogicalType)) ∧
    "b" ∉ Table.columns
      (⟨[("a", ⟨Core.PdDtype.object,
          [PValue.str "x", PValue.str "y", PValue.str "z"]⟩)]⟩ :
        Core.PdTable) ∧
    Core.validate_dataframe
        ⟨[("a", ⟨Core.PdDtype.object,
            [PValue.str "x", PValue.str "y", PValue.str "z"]⟩)]⟩
        [("a", LogicalType.int), ("b", LogicalType.int)] =
      Except.error (Error.typeMismatch "a" LogicalType.int Core.PdDtype.object) :=
  ⟨by decide, by decide, rfl⟩

/-- C3 (amended): if some column declared in the schema is absent from the
table and every column declared before it passes its existence and type
checks, then validation fails with a MissingColumn error naming exactly the
first absent column in declaration order; the conclusion holds for every
declared logical type and every tail of the schema, so no type or constraint
check is performed for the missing column. -/
theorem c3_first_missing_column_fail_fast (df : Core.PdTable)
    (pre rest : List (String × LogicalType)) (c : String) (lt : LogicalType)
    (hpre : ∀ p ∈ pre, Core._check_column_exists df p.1 = Except.ok () ∧
        Core._check_column_type df p.1 p.2 = Except.ok ())
    (habs : c ∉ Table.columns df) :
    Core.validate_dataframe df (pre ++ (c, lt) :: rest) =
      Except.error (Error.missingColumn c) := by
  rw [Core.validate_pre_ok df ((c, lt) :: rest) pre hpre]
  simp [Core.validate_dataframe, Core._check_column_exists, habs]

/-- Witness for C3 (amended): schema `a : int, b : int, c : str` against a
table holding only a conforming `a`; validation reports the missing `b`. -/
theorem c3_first_missing_column_fail_fast_witness :
    Core.validate_dataframe
        ⟨[("a", ⟨Core.PdDtype.int64, [PValue.int 1]⟩)]⟩
        ([("a", LogicalType.int)] ++
          ("b", LogicalType.int) :: [("c", LogicalType.str)]) =
      Except.error (Error.missingColumn "b") :=
  c3_first_missing_column_fail_fast _ _ _ _ _
    (by
      intro p hp
      simp only [List.mem_singleton] at hp
      subst hp
      exact ⟨rfl, rfl⟩)
    (by decide)

/-- C4: the polars registry `TYPE_CHECKERS` has no entries for the datetime,
date or duration annotation types, so validating the test suite's own
datetime column (native `Datetime` dtype) fails with an UnsupportedType
configuration error instead of succeeding. -/
theorem c4_polars_datetime_registry_gap :
    List.lookup LogicalType.datetime Polars.TYPE_CHECKERS = none ∧
    List.lookup LogicalType.date Polars.TYPE_CHECKERS = none ∧
    List.lookup LogicalType.timedelta Polars.TYPE_CHECKERS = none ∧
    Polars.validate_dataframe
        ⟨[("created_at", ⟨Polars.PlDtype.Datetime,
            [PValue.datetime 0, PValue.datetime 1]⟩)]⟩
        [("created_at", LogicalType.datetime)] =
      Except.error (Error.unsupportedType LogicalType.datetime) :=
  ⟨rfl, rfl, rfl, rfl⟩

/-- C5: the range check passes a column exactly when every value v satisfies
min ≤ v ≤ max (inclusive bounds), and whenever it does not pass it fails
with the ConstraintViolation error naming the offending column and the
bound range. -/
theorem c5_range_inclusive_semantics (series : List Int) (r : Pandas.Range)
    (col : String) :
    (Pandas._validate_range series r col = Except.ok () ↔
      ∀ v ∈ series, r.min ≤ v ∧ v ≤ r.max) ∧
    (Pandas._validate_range series r col = Except.ok () ∨
      Pandas._validate_range series r col =
        Except.error (Error.constraintViolation col r.min r.max)) := by
  have key : (series.any (fun x => x < r.min) ||
      series.any (fun x => x > r.max)) = false ↔
      ∀ v ∈ series, r.min ≤ v ∧ v ≤ r.max := by
    simp only [Bool.or_eq_false_iff, List.any_eq_false, decide_eq_true_eq,
      not_lt, gt_iff_lt]
    constructor
    · rintro ⟨h₁, h₂⟩ v hv
      exact ⟨h₁ v hv, h₂ v hv⟩
    · intro h
      exact ⟨fun v hv => (h v hv).1, fun v hv => (h v hv).2⟩
  constructor
  · rw [← key]
    unfold Pandas._validate_range
    cases hb : (series.any (fun x => x < r.min) ||
        series.any (fun x => x > r.max)) with
    | false => simp [hb]
    | true => simp [hb]
  · unfold Pandas._validate_range
    cases hb : (series.any (fun x => x < r.min) ||
        series.any (fun x => x > r.max)) with
    | false =>
      left
      simp [hb]
    | true =>
      right
      simp [hb]

/-- Witness for C5: the in-range column `[0, 150]` passes the bounds
`Range(0, 150)`, and the column `[25, -5, 30]` fails with the
ConstraintViolation naming `age` and the range bounds. -/
theorem c5_range_inclusive_semantics_witness :
    Pandas._validate_range [0, 150] ⟨0, 150⟩ "age" = Except.ok () ∧
    Pandas._validate_range [25, -5, 30] ⟨0, 150⟩ "age" =
      Except.error (Error.constraintViolation "age" 0 150) := by
  constructor
  · exact (c5_range_inclusive_semantics [0, 150] ⟨0, 150⟩ "age").1.mpr
      (by decide)
  · rcases (c5_range_inclusive_semantics [25, -5, 30] ⟨0, 150⟩ "age").2 with h | h
    · exact absurd
        (((c5_range_inclusive_semantics [25, -5, 30] ⟨0, 150⟩ "age").1.mp h)
          (-5) (by decide)).1 (by decide)
    · exact h

/-- C6 counterexample: a schema declaring `a : int` then `b : datetime`
(a logical type absent from the pandas registry) against a table that holds
column `b` but not `a`. Fail-fast validation stops at the missing `a`, so
the failure is MissingColumn, not UnsupportedType. -/
theorem c6_counterexample :
    List.lookup LogicalType.datetime Core.TYPE_CHECKERS = none ∧
    ("b", LogicalType.datetime) ∈
      ([("a", LogicalType.int), ("b", LogicalType.datetime)] :
        List (String × LogicalType)) ∧
    "b" ∈ Table.columns
      (⟨[("b", ⟨Core.PdDtype.datetime64, [PValue.datetime 0]⟩)]⟩ :
        Core.PdTable) ∧
    Core.validate_dataframe
        ⟨[("b", ⟨Core.PdDtype.datetime64, [PValue.datetime 0]⟩)]⟩
        [("a", LogicalType.int), ("b", LogicalType.datetime)] =
      Except.error (Error.missingColumn "a") :=
  ⟨rfl, by decide, by decide, rfl⟩

/-- C6 (amended): the type check of a column whose declared logical type has
no registry entry fails with an UnsupportedType configuration error for
every dataframe and column, so the registry predicate is never consulted;
consequently, whole-dataframe validation fails with that error whenever the
column precedes any other failure, i.e. whenever every earlier declared
column passes its checks and the column itself exists. -/
theorem c6_unsupported_type_config_error (df : Core.PdTable)
    (pre rest : List (String × LogicalType)) (c : String) (lt : LogicalType)
    (hreg : List.lookup lt Core.TYPE_CHECKERS = none)
    (hpre : ∀ p ∈ pre, Core._check_column_exists df p.1 = Except.ok () ∧
        Core._check_column_type df p.1 p.2 = Except.ok ())
    (hc : c ∈ Table.columns df) :
    (∀ (df₀ : Core.PdTable) (c₀ : String),
      Core._check_column_type df₀ c₀ lt =
        Except.error (Error.unsupportedType lt)) ∧
    Core.validate_dataframe df (pre ++ (c, lt) :: rest) =
      Except.error (Error.unsupportedType lt) := by
  have hct : ∀ (df₀ : Core.PdTable) (c₀ : String),
      Core._check_column_type df₀ c₀ lt =
        Except.error (Error.unsupportedType lt) := by
    intro df₀ c₀
    simp [Core._check_column_type, hreg]
  refine ⟨hct, ?_⟩
  rw [Core.validate_pre_ok df ((c, lt) :: rest) pre hpre]
  have hex : Core._check_column_exists df c = Except.ok () := by
    simp [Core._check_column_exists, hc]
  simp [Core.validate_dataframe, hex, hct df c]

/-- Witness for C6 (amended): schema `a : int, b : datetime` against a table
with a conforming `a` and a present `b`; validation reports the unsupported
datetime type whatever dtype `b` actually has. -/
theorem c6_unsupported_type_config_error_witness :
    Core.validate_dataframe
        ⟨[("a", ⟨Core.PdDtype.int64, [PValue.int 1]⟩),
          ("b", ⟨Core.PdDtype.float64, [PValue.int 2]⟩)]⟩
        ([("a", LogicalType.int)] ++ ("b", LogicalType.datetime) :: []) =
      Except.error (Error.unsupportedType LogicalType.datetime) :=
  (c6_unsupported_type_config_error
    ⟨[("a", ⟨Core.PdDtype.int64, [PValue.int 1]⟩),
      ("b", ⟨Core.PdDtype.float64, [PValue.int 2]⟩)]⟩
    [("a", LogicalType.int)] [] "b" LogicalType.datetime rfl
    (by
      intro p hp
      simp only [List.mem_singleton] at hp
      subst hp
      exact ⟨rfl, rfl⟩)
    (by decide)).2

/-- C7: the validation outcome depends only on the columns declared in the
schema: two dataframes that agree on every declared column (same presence,
dtype and values) validate identically, whatever extra columns either of
them carries. -/
theorem c7_extra_columns_never_read (s : List (String × LogicalType))
    (df₁ df₂ : Polars.PlTable)
    (h : ∀ p ∈ s, Table.lookup df₁ p.1 = Table.lookup df₂ p.1) :
    Polars.validate_dataframe df₁ s = Polars.validate_dataframe df₂ s := by
  induction s with
  | nil => rfl
  | cons p rest ih =>
    obtain ⟨c, lt⟩ := p
    have hc := h (c, lt) (List.mem_cons_self _ _)
    have hrest := fun q hq => h q (List.mem_cons_of_mem _ hq)
    have e₁ := Polars.check_exists_congr df₁ df₂ c hc
    have e₂ := Polars.check_type_congr df₁ df₂ c lt hc
    simp only [Polars.validate_dataframe, e₁, e₂]
    cases Polars._check_column_exists df₂ c with
    | error e => rfl
    | ok u =>
      cases Polars._check_column_type df₂ c lt with
      | error e => rfl
      | ok u => exact ih hrest

/-- Witness for C7: concrete scenario with schema `a : int`; the table with
the extra string column `b` validates exactly like the table without it,
and both succeed. -/
theorem c7_extra_columns_never_read_witness :
    Polars.validate_dataframe
        ⟨[("a", ⟨Polars.PlDtype.Int64,
            [PValue.int 1, PValue.int 2, PValue.int 3]⟩),
          ("b", ⟨Polars.PlDtype.Utf8,
            [PValue.str "x", PValue.str "y", PValue.str "z"]⟩)]⟩
        [("a", LogicalType.int)] =
      Polars.validate_dataframe
        ⟨[("a", ⟨Polars.PlDtype.Int64,
            [PValue.int 1, PValue.int 2, PValue.int 3]⟩)]⟩
        [("a", LogicalType.int)] ∧
    Polars.validate_dataframe
        ⟨[("a", ⟨Polars.PlDtype.Int64,
            [PValue.int 1, PValue.int 2, PValue.int 3]⟩),
          ("b", ⟨Polars.PlDtype.Utf8,
            [PValue.str "x", PValue.str "y", PValue.str "z"]⟩)]⟩
        [("a", LogicalType.int)] = Except.ok () :=
  ⟨c7_extra_columns_never_read _ _ _ (by decide), rfl⟩

/-- C8: on any validator that is not a `Range` the dispatcher fails with an
UnknownConstraintKind configuration error naming the validator's type, and
the outcome is the same whatever the column's values are (no value is
evaluated). -/
theorem c8_unknown_validator_kind (series : List Int) (col t : String) :
    Pandas.apply_validator series (Pandas.PyValidator.other t) col =
      Except.error (Error.unknownConstraintKind t) ∧
    Pandas.apply_validator series (Pandas.PyValidator.other t) col =
      Pandas.apply_validator [] (Pandas.PyValidator.other t) col :=
  ⟨rfl, rfl⟩

/-- C9: the error taxonomy is collapsed onto host exception classes:
MissingColumn and UnsupportedType are both raised as `ValueError`,
TypeMismatch as `TypeError`, so by exception class alone a missing column is
indistinguishable from an unsupported logical type. -/
theorem c9_host_exception_collapse {δ : Type} :
    (∀ c : String,
      (Error.missingColumn c : Error δ).hostClass = HostExn.valueError) ∧
    (∀ lt : LogicalType,
      (Error.unsupportedType lt : Error δ).hostClass = HostExn.valueError) ∧
    (∀ (c : String) (lt : LogicalType) (dt : δ),
      (Error.typeMismatch c lt dt).hostClass = HostExn.typeError) ∧
    (∀ (c : String) (lt : LogicalType),
      (Error.missingColumn c : Error δ).hostClass =
        (Error.unsupportedType lt : Error δ).hostClass) :=
  ⟨fun _ => rfl, fun _ => rfl, fun _ _ _ => rfl, fun _ _ => rfl⟩

/-- C10: whatever object `DataFrame.__new__` returns, its runtime class is
plain `pl.DataFrame`, never the schema-bound wrapper subclass; for
dataframe input the result (and the outcome as a whole) is the input object
itself, with the extra constructor arguments silently ignored; for raw
input the underlying frame is the one freshly built by the external
`pl.DataFrame` constructor. -/
theorem c10_wrapper_never_instantiates_subclass {Raw Args : Type}
    (pl_DataFrame : Raw → Args → Polars.PlTable)
    (cls : Polars.DataFrameClass) (args args₂ : Args) :
    (∀ data : Polars.DataInput Raw,
      (Polars.DataFrame_new pl_DataFrame cls data args).map
          Polars.PlInstance.cls =
        (Polars.DataFrame_new pl_DataFrame cls data args).map
          (fun _ => Polars.PyClass.plDataFrame)) ∧
    (∀ df : Polars.PlTable,
      Polars.DataFrame_new pl_DataFrame cls (Polars.DataInput.frame df) args =
        Polars.DataFrame_new pl_DataFrame cls
          (Polars.DataInput.frame df) args₂) ∧
    (∀ df : Polars.PlTable,
      (Polars.DataFrame_new pl_DataFrame cls
          (Polars.DataInput.frame df) args).map Polars.PlInstance.frame =
        (Polars.DataFrame_new pl_DataFrame cls
          (Polars.DataInput.frame df) args).map (fun _ => df)) ∧
    (∀ d : Raw,
      (Polars.DataFrame_new pl_DataFrame cls
          (Polars.DataInput.raw d) args).map Polars.PlInstance.frame =
        (Polars.DataFrame_new pl_DataFrame cls
          (Polars.DataInput.raw d) args).map
          (fun _ => pl_DataFrame d args)) := by
  obtain ⟨sch⟩ := cls
  refine ⟨?_, ?_, ?_, ?_⟩
  · intro data
    cases data with
    | frame df =>
      cases sch with
      | none => rfl
      | some s =>
        cases hv : Polars.validate_dataframe df s with
        | error e => simp [Polars.DataFrame_new, hv, Except.map]
        | ok u => simp [Polars.DataFrame_new, hv, Except.map]
    | raw d =>
      cases sch with
      | none => rfl
      | some s =>
        cases hv : Polars.validate_dataframe (pl_DataFrame d args) s with
        | error e => simp [Polars.DataFrame_new, hv, Except.map]
        | ok u => simp [Polars.DataFrame_new, hv, Except.map]
  · intro df
    rfl
  · intro df
    cases sch with
    | none => rfl
    | some s =>
      cases hv : Polars.validate_dataframe df s with
      | error e => simp [Polars.DataFrame_new, hv, Except.map]
      | ok u => simp [Polars.DataFrame_new, hv, Except.map]
  · intro d
    cases sch with
    | none => rfl
    | some s =>
      cases hv : Polars.validate_dataframe (pl_DataFrame d args) s with
      | error e => simp [Polars.DataFrame_new, hv, Except.map]
      | ok u => simp [Polars.DataFrame_new, hv, Except.map]

end Pavise
